import Mathlib

/-!
Verification of the rtos kernel-api mutual-exclusion library: the `Mutex` and
`RecursiveMutex` wrappers around the native FreeRTOS semaphore primitives, and
the RAII `LockGuard` template.  Pure wrapper code is translated directly from
the C++ sources; the native scheduler primitives (an external collaborator) are
modelled from their documented contract: an acquisition attempt observed at the
moment the call completes succeeds iff the lock is free (or, recursively, held
by the caller), with contention and releases by other tasks represented as
separate interleaved events.
-/

/-- Scheduler tick count: the alias `rtos::Ticks_t = uint32_t` (Ticks.hpp). -/
abbrev Ticks_t := Nat

/-- The FreeRTOS block-forever sentinel `portMAX_DELAY` for a 32-bit tick type. -/
def portMAX_DELAY : Ticks_t := 4294967295

/-- The function `rtos::GetMaxDelay()` (src/unnamed/part_001): returns `portMAX_DELAY`. -/
def GetMaxDelay : Ticks_t := portMAX_DELAY

/-- A native handle value (`void*`): `none` models `nullptr`, `some k` a
    distinct non-null allocation. -/
abbrev NativeHdl := Option Nat

/-- The data carried by `rtos::Mutex` (Mutex.hpp): the stored native handle. -/
structure Mutex where
  handle : NativeHdl
deriving DecidableEq

/-- The data carried by `rtos::RecursiveMutex` (RecursiveMutex.hpp, part_002):
    the stored native handle. -/
structure RecursiveMutex where
  handle : NativeHdl
deriving DecidableEq

/-- Observable effect of running a constructor body: the constructed object and
    whether the body's `assert` condition was violated (in which case, in a
    build with assertions enabled, the program aborts). -/
structure CtorEffect (α : Type) where
  obj : α
  assertFailed : Bool
deriving DecidableEq

/-- The constructor `Mutex::Mutex()` (Mutex.cpp lines 17-22): initialises
    `_handle` to `nullptr`, overwrites it with the result of
    `xSemaphoreCreateMutex()` (passed in as `alloc`, since allocation success
    is decided by the environment), then executes
    `assert(_handle && "Failed to create the mutex")`. -/
def Mutex.construct (alloc : NativeHdl) : CtorEffect Mutex :=
  { obj := { handle := alloc }, assertFailed := alloc.isNone }

/-- The member `Mutex::IsValid()` (Mutex.cpp lines 29-32): `nullptr != _handle`. -/
def Mutex.IsValid (m : Mutex) : Bool :=
  m.handle.isSome

/-- The destructor `Mutex::~Mutex()` (Mutex.cpp lines 24-27): the list of
    arguments passed to `vSemaphoreDelete` while it runs.  The body is the
    single unconditional call `vSemaphoreDelete(_handle)`. -/
def Mutex.destructorDeleteCalls (m : Mutex) : List NativeHdl :=
  [m.handle]

/-- The constructor `RecursiveMutex::RecursiveMutex()` (part_000 lines 17-22):
    initialises `_handle` to `nullptr`, overwrites it with the result of
    `xSemaphoreCreateRecursiveMutex()` (passed in as `alloc`), then executes
    `assert(_handle && "Failed to create the recursive mutex")`. -/
def RecursiveMutex.construct (alloc : NativeHdl) : CtorEffect RecursiveMutex :=
  { obj := { handle := alloc }, assertFailed := alloc.isNone }

/-- The member `RecursiveMutex::IsValid()` (part_000 lines 29-32). -/
def RecursiveMutex.IsValid (m : RecursiveMutex) : Bool :=
  m.handle.isSome

/-- The destructor `RecursiveMutex::~RecursiveMutex()` (part_000 lines 24-27):
    arguments passed to `vSemaphoreDelete`; a single unconditional call. -/
def RecursiveMutex.destructorDeleteCalls (m : RecursiveMutex) : List NativeHdl :=
  [m.handle]

/-- C1, counterexample: the claim says construction "performs no other failure
    action" beyond leaving the handle null, but when native allocation fails
    (returns `nullptr`) the constructor body's `assert` condition is violated,
    for `Mutex` and `RecursiveMutex` alike: an assertion failure is a failure
    action beyond `IsValid()` turning false. -/
theorem mutex_ctor_assert_fires_on_null :
    (Mutex.construct none).assertFailed = true ∧
    (RecursiveMutex.construct none).assertFailed = true :=
  ⟨rfl, rfl⟩

/-- C1 (amended): for both `Mutex` and `RecursiveMutex`, a failed native
    allocation leaves the stored handle null (and a successful one stores the
    allocated handle unchanged), `IsValid()` returns true iff the stored handle
    is non-null, no exception is raised, and the only failure action besides
    `IsValid()` turning false is the constructor's `assert` on the handle,
    which is violated exactly when allocation fails. -/
theorem mutex_construction_validity (alloc : NativeHdl) :
    (Mutex.construct alloc).obj.handle = alloc ∧
    (Mutex.construct alloc).assertFailed = alloc.isNone ∧
    Mutex.IsValid (Mutex.construct alloc).obj = alloc.isSome ∧
    (RecursiveMutex.construct alloc).obj.handle = alloc ∧
    (RecursiveMutex.construct alloc).assertFailed = alloc.isNone ∧
    RecursiveMutex.IsValid (RecursiveMutex.construct alloc).obj = alloc.isSome ∧
    (∀ m : Mutex, Mutex.IsValid m = m.handle.isSome) ∧
    (∀ m : RecursiveMutex, RecursiveMutex.IsValid m = m.handle.isSome) :=
  ⟨rfl, rfl, rfl, rfl, rfl, rfl, fun _ => rfl, fun _ => rfl⟩

/-- C10: both destructors pass the stored handle to `vSemaphoreDelete`
    unconditionally, with no null check; in particular, destroying an instance
    whose construction failed (handle null, `IsValid()` false) still invokes
    the native delete once, on the null handle. -/
theorem mutex_destructor_unconditional_delete :
    (∀ m : Mutex, Mutex.destructorDeleteCalls m = [m.handle]) ∧
    (∀ m : RecursiveMutex, RecursiveMutex.destructorDeleteCalls m = [m.handle]) ∧
    Mutex.destructorDeleteCalls (Mutex.construct none).obj = [none] ∧
    Mutex.IsValid (Mutex.construct none).obj = false ∧
    RecursiveMutex.destructorDeleteCalls (RecursiveMutex.construct none).obj = [none] ∧
    RecursiveMutex.IsValid (RecursiveMutex.construct none).obj = false :=
  ⟨fun _ => rfl, fun _ => rfl, rfl, rfl, rfl, rfl⟩

/-- A task identifier (`TaskHandle_t` of the scheduler, abstracted). -/
abbrev TaskId := Nat

/-- Semantic state of one native non-recursive FreeRTOS mutex: the current
    holder (`none` = free).  Modelled from the documented native contract: the
    external collaborator's exclusive-lock primitive. -/
abbrev MutexSem := Option TaskId

/-- Native `xSemaphoreTake` on a non-recursive mutex, observed at the moment
    the call completes with no interleaved release: succeeds iff the mutex is
    free, making the caller the holder; any attempt while the mutex is held
    (even by the caller: a non-recursive mutex can be taken only once) fails
    when its timeout elapses, leaving the state unchanged.  Releases by other
    tasks during a timed wait are separate interleaved events in the models
    built on this. -/
def xSemaphoreTake (tid : TaskId) (s : MutexSem) : MutexSem × Bool :=
  match s with
  | none => (some tid, true)
  | some t => (some t, false)

/-- Native `xSemaphoreGive` on a non-recursive mutex: succeeds iff the calling
    task is the holder, freeing the mutex; otherwise fails and changes
    nothing. -/
def xSemaphoreGive (tid : TaskId) (s : MutexSem) : MutexSem × Bool :=
  match s with
  | some t => if t = tid then (none, true) else (some t, false)
  | none => (none, false)

/-- The member `Mutex::TryLockFor(timeout)` (Mutex.cpp lines 39-43): forwards
    to `xSemaphoreTake(_handle, timeout)` and returns whether it reported
    `pdTRUE`.  The timeout only bounds how long the native call may block; the
    completed call's outcome is a function of the holder state. -/
def Mutex.TryLockFor (tid : TaskId) (timeout : Ticks_t) (s : MutexSem) : MutexSem × Bool :=
  xSemaphoreTake tid s

/-- The member `Mutex::TryLock()` (Mutex.cpp lines 34-37): `TryLockFor(0)`. -/
def Mutex.TryLock (tid : TaskId) (s : MutexSem) : MutexSem × Bool :=
  Mutex.TryLockFor tid 0 s

/-- The member `Mutex::Unlock()` (Mutex.cpp lines 58-61): calls
    `xSemaphoreGive` and discards its result. -/
def Mutex.Unlock (tid : TaskId) (s : MutexSem) : MutexSem :=
  (xSemaphoreGive tid s).1

/-- The member `Mutex::IsLocked()` (Mutex.cpp lines 63-68): true iff
    `xSemaphoreGetMutexHolder` returns a non-null task handle, i.e. iff some
    task currently holds the mutex. -/
def Mutex.IsLocked (s : MutexSem) : Bool :=
  s.isSome

/-- The do-while retry loop in `Mutex::Lock()` (Mutex.cpp lines 45-56), run
    against the sequence of results the native layer delivers to its
    successive `TryLockFor(GetMaxDelay())` calls.  Returns the list of timeout
    arguments passed to `TryLockFor` when the loop exits within the observed
    prefix of results, `none` when it is still looping after consuming them
    all. -/
def Mutex.LockAttempts : List Bool → Option (List Ticks_t)
  | [] => none
  | r :: rs =>
    if r then some [GetMaxDelay]
    else (Mutex.LockAttempts rs).map (fun tr => GetMaxDelay :: tr)

/-- Semantic state of one native recursive FreeRTOS mutex: current holder and
    hold count (`holder = none` goes with `count = 0`). -/
structure RecMutexSem where
  holder : Option TaskId
  count : Nat
deriving DecidableEq

/-- Native `xSemaphoreTakeRecursive`, observed at the moment the call
    completes with no interleaved release: succeeds iff the mutex is free
    (caller becomes holder with count 1) or already held by the caller (count
    is incremented); an attempt by a non-holder fails when its timeout
    elapses, changing nothing. -/
def xSemaphoreTakeRecursive (tid : TaskId) (s : RecMutexSem) : RecMutexSem × Bool :=
  match s.holder with
  | none => ({ holder := some tid, count := 1 }, true)
  | some t =>
    if t = tid then ({ holder := some t, count := s.count + 1 }, true)
    else (s, false)

/-- Native `xSemaphoreGiveRecursive`: succeeds iff the calling task is the
    holder, decrementing the hold count and freeing the mutex when the count
    reaches zero; otherwise fails and changes nothing. -/
def xSemaphoreGiveRecursive (tid : TaskId) (s : RecMutexSem) : RecMutexSem × Bool :=
  match s.holder with
  | none => (s, false)
  | some t =>
    if t = tid then
      (if s.count ≤ 1 then { holder := none, count := 0 }
       else { holder := some t, count := s.count - 1 }, true)
    else (s, false)

/-- The member `RecursiveMutex::TryLockFor(timeout)` (part_000 lines 39-43):
    forwards to `xSemaphoreTakeRecursive(_handle, timeout)` and returns
    whether it reported `pdTRUE`. -/
def RecursiveMutex.TryLockFor (tid : TaskId) (timeout : Ticks_t) (s : RecMutexSem) :
    RecMutexSem × Bool :=
  xSemaphoreTakeRecursive tid s

/-- The member `RecursiveMutex::TryLock()` (part_000 lines 34-37):
    `TryLockFor(0)`. -/
def RecursiveMutex.TryLock (tid : TaskId) (s : RecMutexSem) : RecMutexSem × Bool :=
  RecursiveMutex.TryLockFor tid 0 s

/-- The member `RecursiveMutex::Unlock()` (part_000 lines 58-61): calls
    `xSemaphoreGiveRecursive` and discards its result. -/
def RecursiveMutex.Unlock (tid : TaskId) (s : RecMutexSem) : RecMutexSem :=
  (xSemaphoreGiveRecursive tid s).1

/-- The member `RecursiveMutex::IsLocked()` (part_000 lines 63-68): true iff
    the native holder query returns a non-null task handle. -/
def RecursiveMutex.IsLocked (s : RecMutexSem) : Bool :=
  s.holder.isSome

/-- The do-while retry loop in `RecursiveMutex::Lock()` (part_000 lines
    45-56), textually identical to the one in `Mutex::Lock()`: same oracle
    reading as `Mutex.LockAttempts`. -/
def RecursiveMutex.LockAttempts : List Bool → Option (List Ticks_t)
  | [] => none
  | r :: rs =>
    if r then some [GetMaxDelay]
    else (RecursiveMutex.LockAttempts rs).map (fun tr => GetMaxDelay :: tr)

/-- The member `RecursiveMutex::Lock()` run in the interleaving-free semantic
    model: since a completed `TryLockFor` there is a deterministic function of
    the state and a failure changes nothing, either the first attempt of the
    retry loop succeeds or every attempt fails forever; the result is the
    post-state in the first case and `none` (the loop never exits) in the
    second. -/
def RecursiveMutex.Lock (tid : TaskId) (s : RecMutexSem) : Option RecMutexSem :=
  let a := RecursiveMutex.TryLockFor tid GetMaxDelay s
  if a.2 then some a.1 else none

/-- N sequential calls of `RecursiveMutex::Lock()` by task `tid`; `none` as
    soon as one of them fails to return. -/
def RecursiveMutex.lockN (tid : TaskId) : Nat → RecMutexSem → Option RecMutexSem
  | 0, s => some s
  | n + 1, s => (RecursiveMutex.Lock tid s).bind (RecursiveMutex.lockN tid n)

/-- N sequential calls of `RecursiveMutex::Unlock()` by task `tid`. -/
def RecursiveMutex.unlockN (tid : TaskId) : Nat → RecMutexSem → RecMutexSem
  | 0, s => s
  | n + 1, s => RecursiveMutex.unlockN tid n (RecursiveMutex.Unlock tid s)

/-- Both Lock retry loops read their oracle identically. -/
theorem lockAttempts_rec_eq_mutex :
    ∀ results : List Bool,
      RecursiveMutex.LockAttempts results = Mutex.LockAttempts results
  | [] => rfl
  | r :: rs => by
    simp [RecursiveMutex.LockAttempts, Mutex.LockAttempts,
      lockAttempts_rec_eq_mutex rs]

/-- Shape of a terminating run of the `Mutex::Lock()` retry loop: at least one
    attempt, every attempt passed the block-forever sentinel, the last attempt
    succeeded and all earlier ones failed. -/
theorem lockAttempts_spec :
    ∀ (results : List Bool) (tr : List Ticks_t),
      Mutex.LockAttempts results = some tr →
      1 ≤ tr.length ∧
      tr = List.replicate tr.length GetMaxDelay ∧
      results.get? (tr.length - 1) = some true ∧
      (∀ i, i < tr.length - 1 → results.get? i = some false)
  | [], tr => by simp [Mutex.LockAttempts]
  | r :: rs, tr => by
    rcases hr : r with _ | _
    · intro h
      simp [Mutex.LockAttempts, hr] at h
      obtain ⟨t0, ht0, htr⟩ := h
      obtain ⟨hlen, hrep, hlast, hfail⟩ := lockAttempts_spec rs t0 ht0
      subst htr
      obtain ⟨m, hm⟩ : ∃ m, t0.length = m + 1 := ⟨t0.length - 1, by omega⟩
      refine ⟨by simp, ?_, ?_, ?_⟩
      · calc GetMaxDelay :: t0
            = GetMaxDelay :: List.replicate t0.length GetMaxDelay := by
              rw [← hrep]
          _ = List.replicate (GetMaxDelay :: t0).length GetMaxDelay := by
              simp [List.replicate]
      · have : (GetMaxDelay :: t0).length - 1 = m + 1 := by simp [hm]
        rw [this]
        simpa [hm] using hlast
      · intro i hi
        match i with
        | 0 => simp
        | j + 1 =>
          have : j < t0.length - 1 := by simp at hi; omega
          simpa using hfail j this
    · intro h
      simp [Mutex.LockAttempts, hr] at h
      subst h
      refine ⟨by simp, by simp, by simp [hr], by simp⟩

/-- C5: when the `Lock()` retry loop of `Mutex` exits, it has made at least
    one `TryLockFor` call, every call passed the block-forever sentinel
    `GetMaxDelay()`, the immediately preceding (last) call returned true and
    all earlier ones returned false; the loop of `RecursiveMutex::Lock()` is
    identical; and a `TryLockFor` that returns true has indeed acquired the
    lock (the caller becomes the native holder). -/
theorem mutex_lock_retry_loop (results : List Bool) (tr : List Ticks_t)
    (h : Mutex.LockAttempts results = some tr) :
    1 ≤ tr.length ∧
    tr = List.replicate tr.length GetMaxDelay ∧
    results.get? (tr.length - 1) = some true ∧
    (∀ i, i < tr.length - 1 → results.get? i = some false) ∧
    RecursiveMutex.LockAttempts results = some tr ∧
    (∀ (tid : TaskId) (t : Ticks_t) (s : MutexSem),
      (Mutex.TryLockFor tid t s).2 = true → (Mutex.TryLockFor tid t s).1 = some tid) ∧
    (∀ (tid : TaskId) (t : Ticks_t) (s : RecMutexSem),
      (RecursiveMutex.TryLockFor tid t s).2 = true →
        (RecursiveMutex.TryLockFor tid t s).1.holder = some tid) := by
  obtain ⟨h1, h2, h3, h4⟩ := lockAttempts_spec results tr h
  refine ⟨h1, h2, h3, h4, by rw [lockAttempts_rec_eq_mutex]; exact h, ?_, ?_⟩
  · intro tid t s
    match s with
    | none => intro _; rfl
    | some u => intro hfalse; simp [Mutex.TryLockFor, xSemaphoreTake] at hfalse
  · intro tid t s
    rcases s with ⟨holder, c⟩
    match holder with
    | none => intro _; rfl
    | some u =>
      by_cases hu : u = tid
      · intro _
        simp [RecursiveMutex.TryLockFor, xSemaphoreTakeRecursive, hu]
      · intro hfalse
        simp [RecursiveMutex.TryLockFor, xSemaphoreTakeRecursive, hu] at hfalse

/-- C5, witness: a run whose first attempt fails and second succeeds makes
    exactly two sentinel-timeout calls. -/
theorem mutex_lock_retry_loop_witness :
    Mutex.LockAttempts [false, true] = some [GetMaxDelay, GetMaxDelay] ∧
    [GetMaxDelay, GetMaxDelay] = List.replicate 2 GetMaxDelay ∧
    [false, true].get? 1 = some true := by
  have h := mutex_lock_retry_loop [false, true] [GetMaxDelay, GetMaxDelay] rfl
  exact ⟨rfl, h.2.1, h.2.2.1⟩

/-- While task `tid` already holds the recursive mutex, each `Lock()` call
    returns at once and increments the hold count by one. -/
theorem RecursiveMutex.lockN_owner (tid : TaskId) :
    ∀ (n c : Nat),
      RecursiveMutex.lockN tid n { holder := some tid, count := c } =
        some { holder := some tid, count := c + n }
  | 0, c => by simp [RecursiveMutex.lockN]
  | n + 1, c => by
    have ih := RecursiveMutex.lockN_owner tid n (c + 1)
    simp [RecursiveMutex.lockN, RecursiveMutex.Lock, RecursiveMutex.TryLockFor,
      xSemaphoreTakeRecursive, ih]
    omega

/-- Fewer `Unlock()` calls than the hold count leave task `tid` the holder,
    with the count reduced accordingly. -/
theorem RecursiveMutex.unlockN_owner_lt (tid : TaskId) :
    ∀ (k c : Nat), k < c →
      RecursiveMutex.unlockN tid k { holder := some tid, count := c } =
        { holder := some tid, count := c - k }
  | 0, c, _ => by simp [RecursiveMutex.unlockN]
  | k + 1, c, hk => by
    have hc : ¬ c ≤ 1 := by omega
    have ih := RecursiveMutex.unlockN_owner_lt tid k (c - 1) (by omega)
    simp [RecursiveMutex.unlockN, RecursiveMutex.Unlock, xSemaphoreGiveRecursive, hc, ih]
    omega

/-- Exactly as many `Unlock()` calls as the hold count fully release the
    recursive mutex. -/
theorem RecursiveMutex.unlockN_owner_exact (tid : TaskId) :
    ∀ c : Nat,
      RecursiveMutex.unlockN tid (c + 1) { holder := some tid, count := c + 1 } =
        { holder := none, count := 0 }
  | 0 => by simp [RecursiveMutex.unlockN, RecursiveMutex.Unlock, xSemaphoreGiveRecursive]
  | c + 1 => by
    have hc : ¬ c + 2 ≤ 1 := by omega
    have step : RecursiveMutex.Unlock tid { holder := some tid, count := c + 2 } =
        { holder := some tid, count := c + 1 } := by
      simp [RecursiveMutex.Unlock, xSemaphoreGiveRecursive, hc]
    calc RecursiveMutex.unlockN tid (c + 2) { holder := some tid, count := c + 2 }
        = RecursiveMutex.unlockN tid (c + 1)
            (RecursiveMutex.Unlock tid { holder := some tid, count := c + 2 }) := rfl
      _ = RecursiveMutex.unlockN tid (c + 1) { holder := some tid, count := c + 1 } := by
          rw [step]
      _ = { holder := none, count := 0 } := RecursiveMutex.unlockN_owner_exact tid c

/-- C6: starting from the free recursive mutex, task `tid` can call `Lock()`
    N times (N ≥ 1) with every call succeeding, the hold count ending at N;
    after k ≤ N matching `Unlock()` calls the mutex reports locked exactly
    while k < N, becoming free (holder gone, count zero) only at the Nth; and
    while `tid` is the holder every acquire operation (`TryLockFor` with any
    timeout, hence `TryLock` and the first attempt of `Lock`) succeeds and
    increments the hold count. -/
theorem recursiveMutex_lock_count (tid : TaskId) (N : Nat) (hN : 1 ≤ N) :
    RecursiveMutex.lockN tid N { holder := none, count := 0 } =
      some { holder := some tid, count := N } ∧
    (∀ k, k ≤ N →
      RecursiveMutex.IsLocked
          (RecursiveMutex.unlockN tid k { holder := some tid, count := N }) =
        decide (k < N)) ∧
    RecursiveMutex.unlockN tid N { holder := some tid, count := N } =
      { holder := none, count := 0 } ∧
    (∀ s : RecMutexSem, s.holder = some tid → ∀ t : Ticks_t,
      (RecursiveMutex.TryLockFor tid t s).2 = true ∧
      (RecursiveMutex.TryLockFor tid t s).1 =
        { holder := some tid, count := s.count + 1 }) := by
  obtain ⟨m, hm⟩ : ∃ m, N = m + 1 := ⟨N - 1, by omega⟩
  subst hm
  have hfull := RecursiveMutex.unlockN_owner_exact tid m
  refine ⟨?_, ?_, hfull, ?_⟩
  · have h1 : RecursiveMutex.Lock tid { holder := none, count := 0 } =
        some { holder := some tid, count := 1 } := by
      simp [RecursiveMutex.Lock, RecursiveMutex.TryLockFor, xSemaphoreTakeRecursive]
    simp [RecursiveMutex.lockN, h1, RecursiveMutex.lockN_owner tid m 1]
    omega
  · intro k hk
    by_cases hlt : k < m + 1
    · rw [RecursiveMutex.unlockN_owner_lt tid k (m + 1) hlt]
      simp [RecursiveMutex.IsLocked, hlt]
    · have hk1 : k = m + 1 := by omega
      subst hk1
      rw [hfull]
      simp [RecursiveMutex.IsLocked]
  · intro s hs t
    rcases s with ⟨holder, c⟩
    simp only at hs
    subst hs
    constructor
    · simp [RecursiveMutex.TryLockFor, xSemaphoreTakeRecursive]
    · simp [RecursiveMutex.TryLockFor, xSemaphoreTakeRecursive]

/-- C6, witness: three nested acquisitions by task 0 leave the count at 3;
    after two releases the mutex still reports locked, after the third it is
    free. -/
theorem recursiveMutex_lock_count_witness :
    RecursiveMutex.lockN 0 3 { holder := none, count := 0 } =
      some { holder := some 0, count := 3 } ∧
    RecursiveMutex.IsLocked
        (RecursiveMutex.unlockN 0 2 { holder := some 0, count := 3 }) = true ∧
    RecursiveMutex.IsLocked
        (RecursiveMutex.unlockN 0 3 { holder := some 0, count := 3 }) = false := by
  have h := recursiveMutex_lock_count 0 3 (by decide)
  refine ⟨h.1, ?_, ?_⟩
  · simpa using h.2.1 2 (by decide)
  · simpa using h.2.1 3 (by decide)

/-- A call a `LockGuard` can make on its underlying `MUTEX` (`_mutex`). -/
inductive MCall where
  | lock : MCall
  | tryLock : MCall
  | tryLockFor : Ticks_t → MCall
  | unlock : MCall
deriving DecidableEq

/-- A model of the `MUTEX` template parameter of `LockGuard<MUTEX>`: a state
    type together with the effect and boolean result of each completed call
    (the result of `lock` and `unlock` is ignored by the guard, matching their
    `void` return type). -/
structure MutexModel (σ : Type) where
  step : σ → MCall → σ × Bool

/-- State of one `LockGuard<MUTEX>` instance together with its referenced
    mutex: the member `_isLocked`, the mutex state behind `_mutex`, and the
    log of calls the guard has made on `_mutex`. -/
structure GuardState (σ : Type) where
  isLocked : Bool
  mstate : σ
  trace : List MCall
deriving DecidableEq

/-- The member `LockGuard::OwnsLock()` (LockGuard.hpp lines 149-152): returns
    `_isLocked`. -/
def LockGuard.OwnsLock {σ : Type} (g : GuardState σ) : Bool :=
  g.isLocked

/-- The member `LockGuard::Lock()` (LockGuard.hpp lines 95-102): when not
    owning, calls `_mutex.Lock()` then sets `_isLocked = true`; otherwise does
    nothing. -/
def LockGuard.Lock {σ : Type} (M : MutexModel σ) (g : GuardState σ) : GuardState σ :=
  if LockGuard.OwnsLock g then g
  else
    { isLocked := true,
      mstate := (M.step g.mstate MCall.lock).1,
      trace := g.trace ++ [MCall.lock] }

/-- The member `LockGuard::TryLock()` (LockGuard.hpp lines 108-116): when not
    owning, sets `_isLocked = _mutex.TryLock()`; returns `_isLocked`. -/
def LockGuard.TryLock {σ : Type} (M : MutexModel σ) (g : GuardState σ) :
    GuardState σ × Bool :=
  if LockGuard.OwnsLock g then (g, g.isLocked)
  else
    let a := M.step g.mstate MCall.tryLock
    ({ isLocked := a.2, mstate := a.1, trace := g.trace ++ [MCall.tryLock] }, a.2)

/-- The member `LockGuard::TryLockFor(timeout)` (LockGuard.hpp lines 124-132):
    when not owning, sets `_isLocked = _mutex.TryLockFor(timeout)`; returns
    `_isLocked`. -/
def LockGuard.TryLockFor {σ : Type} (M : MutexModel σ) (timeout : Ticks_t)
    (g : GuardState σ) : GuardState σ × Bool :=
  if LockGuard.OwnsLock g then (g, g.isLocked)
  else
    let a := M.step g.mstate (MCall.tryLockFor timeout)
    ({ isLocked := a.2, mstate := a.1, trace := g.trace ++ [MCall.tryLockFor timeout] }, a.2)

/-- The member `LockGuard::Unlock()` (LockGuard.hpp lines 137-144): when
    owning, sets `_isLocked = false` then calls `_mutex.Unlock()`; otherwise
    does nothing. -/
def LockGuard.Unlock {σ : Type} (M : MutexModel σ) (g : GuardState σ) : GuardState σ :=
  if LockGuard.OwnsLock g then
    { isLocked := false,
      mstate := (M.step g.mstate MCall.unlock).1,
      trace := g.trace ++ [MCall.unlock] }
  else g

/-- The destructor `LockGuard::~LockGuard()` (LockGuard.hpp lines 87-90): its
    body is the single call `Unlock()`; it runs on every exit path of the
    guard's scope. -/
def LockGuard.destructor {σ : Type} (M : MutexModel σ) (g : GuardState σ) : GuardState σ :=
  LockGuard.Unlock M g

/-- Member initialisation common to all four constructors (LockGuard.hpp):
    `_mutex(mutex), _isLocked(false)`, no calls made yet. -/
def LockGuard.init {σ : Type} (s : σ) : GuardState σ :=
  { isLocked := false, mstate := s, trace := [] }

/-- The Immediate-policy constructor `LockGuard(MUTEX&)` (LockGuard.hpp lines
    43-47): initialises then calls `Lock()`. -/
def LockGuard.mkImmediate {σ : Type} (M : MutexModel σ) (s : σ) : GuardState σ :=
  LockGuard.Lock M (LockGuard.init s)

/-- The Deferred-policy constructor `LockGuard(MUTEX&, DeferLock)`
    (LockGuard.hpp lines 55-57): initialises and makes no call. -/
def LockGuard.mkDefer {σ : Type} (s : σ) : GuardState σ :=
  LockGuard.init s

/-- The Try-once-policy constructor `LockGuard(MUTEX&, TryToLock)`
    (LockGuard.hpp lines 65-69): initialises then calls `TryLock()`. -/
def LockGuard.mkTryToLock {σ : Type} (M : MutexModel σ) (s : σ) : GuardState σ :=
  (LockGuard.TryLock M (LockGuard.init s)).1

/-- The Timed-policy constructor `LockGuard(MUTEX&, Ticks_t)` (LockGuard.hpp
    lines 78-82): initialises then calls `TryLockFor(timeout)`. -/
def LockGuard.mkTimed {σ : Type} (M : MutexModel σ) (timeout : Ticks_t) (s : σ) :
    GuardState σ :=
  (LockGuard.TryLockFor M timeout (LockGuard.init s)).1

/-- The concrete `MUTEX` model given by `rtos::Mutex` used by task `tid`: each
    call's effect per the wrapper semantics above.  A blocking `Lock()` that
    can never complete (mutex held with no interleaved release) is represented
    as a failed step leaving the state unchanged; a completed one requires the
    mutex free. -/
def Mutex.model (tid : TaskId) : MutexModel MutexSem :=
  { step := fun s c =>
      match c with
      | MCall.lock => xSemaphoreTake tid s
      | MCall.tryLock => Mutex.TryLock tid s
      | MCall.tryLockFor t => Mutex.TryLockFor tid t s
      | MCall.unlock => (Mutex.Unlock tid s, true) }

/-- C2: destruction of a `LockGuard` always leaves the guard unowned; when the
    guard owned the lock the destructor makes exactly one `Unlock` call on the
    underlying mutex (and clears the flag), and when it did not own the lock
    the underlying mutex is not touched at all (state and call log unchanged),
    for every underlying mutex model, i.e. on every exit path. -/
theorem lockGuard_destructor_releases {σ : Type} (M : MutexModel σ) (g : GuardState σ) :
    (LockGuard.destructor M g).isLocked = false ∧
    (g.isLocked = true →
      LockGuard.destructor M g =
        { isLocked := false,
          mstate := (M.step g.mstate MCall.unlock).1,
          trace := g.trace ++ [MCall.unlock] }) ∧
    (g.isLocked = false → LockGuard.destructor M g = g) := by
  cases hg : g.isLocked
  · simp [LockGuard.destructor, LockGuard.Unlock, LockGuard.OwnsLock, hg]
  · simp [LockGuard.destructor, LockGuard.Unlock, LockGuard.OwnsLock, hg]

/-- C2, witness: destroying an owning guard on a `Mutex` held by task 0 makes
    the single `Unlock` call and frees the mutex; destroying a non-owning
    guard changes nothing. -/
theorem lockGuard_destructor_releases_witness :
    LockGuard.destructor (Mutex.model 0)
        { isLocked := true, mstate := some 0, trace := [] } =
      { isLocked := false, mstate := none, trace := [MCall.unlock] } ∧
    LockGuard.destructor (Mutex.model 0)
        { isLocked := false, mstate := some 1, trace := [] } =
      { isLocked := false, mstate := some 1, trace := [] } := by
  have h1 := lockGuard_destructor_releases (Mutex.model 0) ⟨true, some 0, []⟩
  have h2 := lockGuard_destructor_releases (Mutex.model 0) ⟨false, some 1, []⟩
  exact ⟨(h1.2.1 rfl).trans (by decide), h2.2.2 rfl⟩

/-- C3: while a `LockGuard` already owns the lock, `Lock()`, `TryLock()` and
    `TryLockFor(timeout)` (any timeout) are no-ops: the guard (flag, mutex
    state and call log) is returned unchanged, no underlying call is made, and
    the try-style operations return true. -/
theorem lockGuard_acquire_idempotent_when_owned {σ : Type} (M : MutexModel σ)
    (g : GuardState σ) (timeout : Ticks_t) (h : g.isLocked = true) :
    LockGuard.Lock M g = g ∧
    LockGuard.TryLock M g = (g, true) ∧
    LockGuard.TryLockFor M timeout g = (g, true) ∧
    LockGuard.OwnsLock g = true := by
  simp [LockGuard.Lock, LockGuard.TryLock, LockGuard.TryLockFor, LockGuard.OwnsLock, h]

/-- C3, witness: an owning guard over a held `Mutex` is untouched by a
    further `Lock()` or `TryLock()`, the latter reporting true. -/
theorem lockGuard_acquire_idempotent_witness :
    LockGuard.Lock (Mutex.model 0) { isLocked := true, mstate := some 0, trace := [] } =
      { isLocked := true, mstate := some 0, trace := [] } ∧
    LockGuard.TryLock (Mutex.model 0) { isLocked := true, mstate := some 0, trace := [] } =
      ({ isLocked := true, mstate := some 0, trace := [] }, true) := by
  have h := lockGuard_acquire_idempotent_when_owned (Mutex.model 0) ⟨true, some 0, []⟩ 5 rfl
  exact ⟨h.1, h.2.1⟩

/-- C4: `Unlock()` on a guard that does not own the lock is a no-op — the
    guard's flag, the underlying mutex state and the call log are all
    unchanged; consequently a second `Unlock()` in a row is always the
    identity, since the first one leaves the flag false. -/
theorem lockGuard_unlock_noop_when_unowned {σ : Type} (M : MutexModel σ)
    (g : GuardState σ) :
    (g.isLocked = false → LockGuard.Unlock M g = g) ∧
    LockGuard.Unlock M (LockGuard.Unlock M g) = LockGuard.Unlock M g := by
  cases hg : g.isLocked
  · simp [LockGuard.Unlock, LockGuard.OwnsLock, hg]
  · simp [LockGuard.Unlock, LockGuard.OwnsLock, hg]

/-- C4, witness: `Unlock()` on a non-owning guard over a mutex held by
    another task changes nothing (in particular it does not double-release). -/
theorem lockGuard_unlock_noop_witness :
    LockGuard.Unlock (Mutex.model 0) { isLocked := false, mstate := some 1, trace := [] } =
      { isLocked := false, mstate := some 1, trace := [] } :=
  (lockGuard_unlock_noop_when_unowned (Mutex.model 0) ⟨false, some 1, []⟩).1 rfl

/-- C7: the Immediate-policy constructor (single argument) always returns with
    `OwnsLock() == true`, having invoked the blocking `Lock` path on the
    underlying mutex exactly once and set the ownership flag.  The model's
    `step` describes a completed call, which embodies the claim's assumption
    that the lock is eventually available. -/
theorem lockGuard_immediate_owns {σ : Type} (M : MutexModel σ) (s : σ) :
    (LockGuard.mkImmediate M s).isLocked = true ∧
    LockGuard.OwnsLock (LockGuard.mkImmediate M s) = true ∧
    (LockGuard.mkImmediate M s).trace = [MCall.lock] ∧
    (LockGuard.mkImmediate M s).mstate = (M.step s MCall.lock).1 := by
  simp [LockGuard.mkImmediate, LockGuard.init, LockGuard.Lock, LockGuard.OwnsLock]

/-- C8: the Try-once-policy constructor makes exactly one underlying
    acquisition attempt (`TryLock`, i.e. `TryLockFor(0)`: non-blocking) and
    returns immediately with the flag equal to that attempt's outcome, for any
    underlying mutex model; against the `Mutex` semantics this means
    `OwnsLock()` is true after construction on a free mutex and false on a
    mutex already held (in particular by another task). -/
theorem lockGuard_tryToLock_single_attempt (tid : TaskId) (s : MutexSem) :
    (∀ (σ : Type) (M : MutexModel σ) (s0 : σ),
      (LockGuard.mkTryToLock M s0).trace = [MCall.tryLock] ∧
      (LockGuard.mkTryToLock M s0).isLocked = (M.step s0 MCall.tryLock).2) ∧
    (LockGuard.mkTryToLock (Mutex.model tid) s).isLocked = s.isNone ∧
    LockGuard.OwnsLock (LockGuard.mkTryToLock (Mutex.model tid) none) = true ∧
    (∀ u : TaskId,
      LockGuard.OwnsLock (LockGuard.mkTryToLock (Mutex.model tid) (some u)) = false) ∧
    (∀ s1 : MutexSem, Mutex.TryLock tid s1 = Mutex.TryLockFor tid 0 s1) := by
  refine ⟨?_, ?_, ?_, ?_, fun s1 => rfl⟩
  · intro σ M s0
    constructor <;>
      simp [LockGuard.mkTryToLock, LockGuard.init, LockGuard.TryLock, LockGuard.OwnsLock]
  · cases s <;>
      simp [LockGuard.mkTryToLock, LockGuard.init, LockGuard.TryLock, LockGuard.OwnsLock,
        Mutex.model, Mutex.TryLock, Mutex.TryLockFor, xSemaphoreTake]
  · simp [LockGuard.mkTryToLock, LockGuard.init, LockGuard.TryLock, LockGuard.OwnsLock,
      Mutex.model, Mutex.TryLock, Mutex.TryLockFor, xSemaphoreTake]
  · intro u
    simp [LockGuard.mkTryToLock, LockGuard.init, LockGuard.TryLock, LockGuard.OwnsLock,
      Mutex.model, Mutex.TryLock, Mutex.TryLockFor, xSemaphoreTake]

/-- State of a system of n `LockGuard` instances that all reference one shared
    non-recursive `Mutex`: each guard's `_isLocked` flag and the native holder
    of the mutex.  Guard i is used by task `tids i` (a guard instance belongs
    to exactly one task/scope). -/
structure SysState (n : Nat) where
  owns : Fin n → Bool
  holder : Option TaskId

/-- Guard i runs `TryLock()` (completed atomically: the underlying take
    either succeeds now, iff the mutex is free, or fails now): already-owning
    guards do nothing; a successful take makes guard i's task the holder and
    sets the flag; a failed take stores the returned false into the already
    false flag, changing nothing. -/
def sysTryLock {n : Nat} (tids : Fin n → TaskId) (i : Fin n) (s : SysState n) :
    SysState n :=
  if s.owns i then s
  else
    match s.holder with
    | none => { owns := Function.update s.owns i true, holder := some (tids i) }
    | some _ => s

/-- Guard i runs `TryLockFor(timeout)`: same completed-call semantics as
    `TryLock`; a release by another guard during the timed wait is simply an
    interleaved `unlock` event followed by a retried attempt. -/
def sysTryLockFor {n : Nat} (tids : Fin n → TaskId) (i : Fin n) (timeout : Ticks_t)
    (s : SysState n) : SysState n :=
  if s.owns i then s
  else
    match s.holder with
    | none => { owns := Function.update s.owns i true, holder := some (tids i) }
    | some _ => s

/-- Guard i runs `Unlock()` (also the destructor's body): an owning guard
    clears its flag and gives the mutex back (the native give succeeds iff the
    calling task is the holder, else changes nothing); a non-owning guard does
    nothing. -/
def sysUnlock {n : Nat} (tids : Fin n → TaskId) (i : Fin n) (s : SysState n) :
    SysState n :=
  if s.owns i then
    { owns := Function.update s.owns i false,
      holder := if s.holder = some (tids i) then none else s.holder }
  else s

/-- One completed guard operation on the shared mutex.  `Lock()` by an owning
    guard is a no-op; `Lock()` by a non-owning guard is a blocking native take
    that completes only when the mutex is free (until then the task stays
    blocked and no event occurs). -/
inductive SysStep {n : Nat} (tids : Fin n → TaskId) : SysState n → SysState n → Prop where
  | tryLock (i : Fin n) (s : SysState n) : SysStep tids s (sysTryLock tids i s)
  | tryLockFor (i : Fin n) (timeout : Ticks_t) (s : SysState n) :
      SysStep tids s (sysTryLockFor tids i timeout s)
  | unlock (i : Fin n) (s : SysState n) : SysStep tids s (sysUnlock tids i s)
  | lockOwned (i : Fin n) (s : SysState n) (h : s.owns i = true) : SysStep tids s s
  | lockAcquires (i : Fin n) (s : SysState n) (howns : s.owns i = false)
      (hfree : s.holder = none) :
      SysStep tids s { owns := Function.update s.owns i true, holder := some (tids i) }

/-- Interleavings of completed guard operations. -/
inductive SysReach {n : Nat} (tids : Fin n → TaskId) : SysState n → SysState n → Prop where
  | refl (s : SysState n) : SysReach tids s s
  | step {s0 s1 s2 : SysState n} :
      SysReach tids s0 s1 → SysStep tids s1 s2 → SysReach tids s0 s2

/-- Inductive invariant: every owning guard's task is the native holder, and
    at most one guard owns. -/
def SysInv {n : Nat} (tids : Fin n → TaskId) (s : SysState n) : Prop :=
  (∀ i, s.owns i = true → s.holder = some (tids i)) ∧
  (∀ i j, s.owns i = true → s.owns j = true → i = j)

/-- A successful acquisition by guard i from the free mutex preserves the
    invariant. -/
theorem sysAcquire_inv {n : Nat} {tids : Fin n → TaskId} {s : SysState n} (i : Fin n)
    (hinv : SysInv tids s) (hfree : s.holder = none) :
    SysInv tids { owns := Function.update s.owns i true, holder := some (tids i) } := by
  obtain ⟨h1, h2⟩ := hinv
  constructor
  · intro j hj
    by_cases hij : j = i
    · subst hij; rfl
    · simp [Function.update_apply, hij] at hj
      have := h1 j hj
      rw [hfree] at this
      cases this
  · intro j k hj hk
    by_cases hji : j = i
    · by_cases hki : k = i
      · rw [hji, hki]
      · simp [Function.update_apply, hki] at hk
        have := h1 k hk
        rw [hfree] at this
        cases this
    · simp [Function.update_apply, hji] at hj
      have := h1 j hj
      rw [hfree] at this
      cases this

/-- Every completed guard operation preserves the invariant. -/
theorem sysStep_inv {n : Nat} {tids : Fin n → TaskId} {s s' : SysState n}
    (hst : SysStep tids s s') (hinv : SysInv tids s) : SysInv tids s' := by
  cases hst with
  | tryLock i s =>
    by_cases ho : s.owns i
    · simpa [sysTryLock, ho] using hinv
    · cases hh : s.holder with
      | none => simpa [sysTryLock, ho, hh] using sysAcquire_inv i hinv hh
      | some t => simpa [sysTryLock, ho, hh] using hinv
  | tryLockFor i timeout s =>
    by_cases ho : s.owns i
    · simpa [sysTryLockFor, ho] using hinv
    · cases hh : s.holder with
      | none => simpa [sysTryLockFor, ho, hh] using sysAcquire_inv i hinv hh
      | some t => simpa [sysTryLockFor, ho, hh] using hinv
  | unlock i s =>
    obtain ⟨h1, h2⟩ := hinv
    by_cases ho : s.owns i
    · have hnew : ∀ j, (Function.update s.owns i false) j = true → False := by
        intro j hj
        by_cases hji : j = i
        · subst hji; simp [Function.update_apply] at hj
        · rw [Function.update_apply] at hj
          simp [hji] at hj
          exact hji (h2 j i hj ho)
      constructor
      · intro j hj
        simp [sysUnlock, ho] at hj
        exact absurd hj (fun h => hnew j h)
      · intro j k hj hk
        simp [sysUnlock, ho] at hj
        exact absurd hj (fun h => hnew j h)
    · simpa [sysUnlock, ho] using ⟨h1, h2⟩
  | lockOwned i s h => exact hinv
  | lockAcquires i s howns hfree => exact sysAcquire_inv i hinv hfree

/-- The invariant holds in every reachable state. -/
theorem sysReach_inv {n : Nat} {tids : Fin n → TaskId} {s0 s : SysState n}
    (h0 : SysInv tids s0) (hr : SysReach tids s0 s) : SysInv tids s := by
  induction hr with
  | refl => exact h0
  | step hr hst ih => exact sysStep_inv hst ih

/-- C9: in every state reachable, by completed guard operations, from an
    initial state where no guard owns the shared non-recursive mutex (every
    guard constructor starts with `_isLocked = false`), at most one guard has
    `OwnsLock() == true`, and an owning guard's task is the native holder: a
    guard's flag becomes true only through a successful native take, which
    requires the mutex to be free. -/
theorem lockGuard_mutual_exclusion {n : Nat} (tids : Fin n → TaskId)
    (s0 s : SysState n) (hinit : ∀ i, s0.owns i = false)
    (hr : SysReach tids s0 s) :
    (∀ i j : Fin n, s.owns i = true → s.owns j = true → i = j) ∧
    (∀ i : Fin n, s.owns i = true → s.holder = some (tids i)) := by
  have h0 : SysInv tids s0 := by
    constructor
    · intro i hi
      rw [hinit i] at hi
      cases hi
    · intro i j hi _
      rw [hinit i] at hi
      cases hi
  have h := sysReach_inv h0 hr
  exact ⟨h.2, h.1⟩

/-- Initial state for the C9 witness: two guards, neither owning, mutex free. -/
def sysW0 : SysState 2 :=
  { owns := fun _ => false, holder := none }

/-- Task assignment for the C9 witness: guard i is used by task i. -/
def sysTids : Fin 2 → TaskId := fun i => (i : Nat)

/-- State of the C9 witness after guard 0 succeeds with `TryLock()`. -/
def sysW1 : SysState 2 := sysTryLock sysTids 0 sysW0

/-- C9, witness: after guard 0 of two acquires the free mutex, the invariant
    instantiates — the only owner is guard 0 and its task is the holder. -/
theorem lockGuard_mutual_exclusion_witness :
    (0 : Fin 2) = (0 : Fin 2) ∧ sysW1.holder = some (sysTids 0) := by
  have h := lockGuard_mutual_exclusion sysTids sysW0 sysW1 (fun _ => rfl)
    (SysReach.step (SysReach.refl sysW0) (SysStep.tryLock 0 sysW0))
  have hown : sysW1.owns 0 = true := by
    simp [sysW1, sysW0, sysTryLock, Function.update_apply]
  exact ⟨h.1 0 0 hown hown, h.2 0 hown⟩
